import Mathlib

/-!
Verification development for the OpenCode dashboard repository: a shallow
embedding of the HTTP relay (src/index.tsx), the Anthropic OAuth/PKCE client
(anthropic-auth), the auth service (auth-service), and the UI state updates
of the chat widget (AiChat.tsx) and the provider status view (AuthStatus.tsx),
together with theorems settling the behavioural claims about them.

Modelling conventions:
- A fallible upstream interaction (fetch + body read inside one try block) is
  an explicit `Outcome`/`JsOutcome` input: either the upstream response, or
  `thrown` for any exception raised inside the try block.
- Header names are normalised to lower case, as the JS `Headers` object does;
  a response is the record the handler constructs (status, header list, body).
- `Response.json(body, init)` is modelled as a response whose header list
  starts with a content-type of application/json followed by the init headers,
  and whose body is the serialised error object, represented as `Body.jsonErr`.
-/

/-- The body of a relay response: upstream text passed through, a serialised
JSON error object (the `Response.json({error: msg})` calls), or empty. -/
inductive Body where
  | text (s : String)
  | jsonErr (msg : String)
  | empty
deriving DecidableEq, Repr

/-- A response as constructed by a relay handler. -/
structure RelayResponse where
  status : Nat
  headers : List (String × String)
  body : Body
deriving DecidableEq, Repr

/-- Look up a header by (lower-case) name. -/
def RelayResponse.header (r : RelayResponse) (name : String) : Option String :=
  (r.headers.find? (fun p => p.1 == name)).map (fun p => p.2)

/-- Whether the response carries the permissive CORS origin header. -/
def RelayResponse.hasCorsStar (r : RelayResponse) : Bool :=
  r.header "access-control-allow-origin" == some "*"

/-- An upstream HTTP response as seen by a relay handler. -/
structure UpstreamResp where
  status : Nat
  contentType : Option String
  body : String
deriving DecidableEq, Repr

/-- Model of `response.ok` of the Fetch API: status in the range 200-299. -/
def UpstreamResp.isOk (r : UpstreamResp) : Bool :=
  200 ≤ r.status && r.status < 300

/-- Outcome of the fallible part of a relay handler: the upstream response, or
any exception thrown inside the try block (network error, body read error). -/
inductive Outcome where
  | resp (r : UpstreamResp)
  | thrown
deriving DecidableEq, Repr

def corsStar : String × String := ("access-control-allow-origin", "*")

def corsMethodsAll : String × String :=
  ("access-control-allow-methods", "GET, POST, PUT, DELETE, OPTIONS")

def corsHeadersCt : String × String :=
  ("access-control-allow-headers", "Content-Type, Authorization")

/-- Handler for `/api/anthropic/oauth/token` POST (src/index.tsx).  Success branch
returns the upstream status and body text with a fixed application/json
content type; the catch branch is `Response.json(..., status 500)` with a
CORS origin header. -/
def anthropicOauthToken : Outcome → RelayResponse
  | .resp r =>
      { status := r.status,
        headers := [("content-type", "application/json"), corsStar,
          ("access-control-allow-methods", "POST, OPTIONS"), corsHeadersCt],
        body := .text r.body }
  | .thrown =>
      { status := 500,
        headers := [("content-type", "application/json"), corsStar],
        body := .jsonErr "Failed to exchange OAuth token" }

/-- Handler for `/api/anthropic/oauth/api-key` POST (src/index.tsx). -/
def anthropicOauthApiKey : Outcome → RelayResponse
  | .resp r =>
      { status := r.status,
        headers := [("content-type", "application/json"), corsStar,
          ("access-control-allow-methods", "POST, OPTIONS"), corsHeadersCt],
        body := .text r.body }
  | .thrown =>
      { status := 500,
        headers := [("content-type", "application/json"), corsStar],
        body := .jsonErr "Failed to create API key" }

/-- Handler for `/api/opencode/auth/:id` PUT (src/index.tsx).  The success branch
always labels the body `application/json` regardless of the upstream
content type; the catch branch is a 502. -/
def opencodeAuthPut : Outcome → RelayResponse
  | .resp r =>
      { status := r.status,
        headers := [("content-type", "application/json"), corsStar,
          corsMethodsAll, corsHeadersCt],
        body := .text r.body }
  | .thrown =>
      { status := 502,
        headers := [("content-type", "application/json"), corsStar],
        body := .jsonErr "Failed to store auth credentials" }

/-- Shared shape of the four session/message forwarding handlers in
src/index.tsx: CORS headers, upstream content-type copied when present,
upstream status and body text passed through; 502 JSON error on throw.
The four handlers differ only in their catch-branch error message. -/
def forwardCopyCt (errMsg : String) : Outcome → RelayResponse
  | .resp r =>
      { status := r.status,
        headers := [corsStar, corsMethodsAll, corsHeadersCt] ++
          (match r.contentType with
            | some ct => [("content-type", ct)]
            | none => []),
        body := .text r.body }
  | .thrown =>
      { status := 502,
        headers := [("content-type", "application/json"), corsStar],
        body := .jsonErr errMsg }

/-- Handler for `/api/opencode/session` GET. -/
def opencodeSessionGet : Outcome → RelayResponse :=
  forwardCopyCt "Failed to connect to OpenCode server"

/-- Handler for `/api/opencode/session` POST. -/
def opencodeSessionPost : Outcome → RelayResponse :=
  forwardCopyCt "Failed to create session"

/-- Handler for `/api/opencode/session/:id/message` GET. -/
def opencodeMessageGet : Outcome → RelayResponse :=
  forwardCopyCt "Failed to fetch messages"

/-- Handler for `/api/opencode/session/:id/message` POST. -/
def opencodeMessagePost : Outcome → RelayResponse :=
  forwardCopyCt "Failed to send message"

/-- Handler for `/api/opencode/events` (src/index.tsx): on an OK upstream response
it returns status 200 with text/event-stream headers and the upstream body
streamed through; a non-OK upstream response raises an error that lands in
the same catch branch as a thrown fetch, answering 502 with a JSON error. -/
def opencodeEvents : Outcome → RelayResponse
  | .resp r =>
      if r.isOk then
        { status := 200,
          headers := [("content-type", "text/event-stream"),
            ("cache-control", "no-cache"), ("connection", "keep-alive"),
            corsStar, ("access-control-allow-headers", "Cache-Control")],
          body := .text r.body }
      else
        { status := 502,
          headers := [("content-type", "application/json"), corsStar],
          body := .jsonErr "Failed to connect to OpenCode events stream" }
  | .thrown =>
      { status := 502,
        headers := [("content-type", "application/json"), corsStar],
        body := .jsonErr "Failed to connect to OpenCode events stream" }

/-- Handler for the `/api/opencode/*` catch-all proxy (src/index.tsx).  The success
branch copies status and upstream content-type; the catch branch is
`Response.json({error}, {status: 502})` with NO extra headers (in
particular no CORS origin header). -/
def opencodeCatchAll : Outcome → RelayResponse
  | .resp r =>
      { status := r.status,
        headers := [corsStar, corsMethodsAll, corsHeadersCt] ++
          (match r.contentType with
            | some ct => [("content-type", ct)]
            | none => []),
        body := .text r.body }
  | .thrown =>
      { status := 502,
        headers := [("content-type", "application/json")],
        body := .jsonErr "Failed to connect to OpenCode server" }

/-! ## Anthropic OAuth client (anthropic-auth module) -/

/-- How a PKCE challenge was derived: S256 (secure path via the openauth
library) or plain (the fallback, challenge = verifier). -/
inductive PKCEMethod where
  | s256
  | plain
deriving DecidableEq, Repr

structure PKCE where
  verifier : String
  challenge : String
  method : PKCEMethod
deriving DecidableEq, Repr

/-- The character set used by `generateRandomString` (66 characters). -/
def pkceChars : String :=
  "ABCDEFGHIJKLMNOPQRSTUVWXYZabcdefghijklmnopqrstuvwxyz0123456789-._~"

/-- Model of `generateRandomString(length)`: builds a string of `length` characters
drawn from `pkceChars`; `randAt i` models the i-th draw of
`Math.floor(Math.random() * chars.length)`, always in range. -/
def generateRandomString (randAt : Nat → Fin 66) (length : Nat) : String :=
  String.mk ((List.range length).map (fun i => pkceChars.toList.getD (randAt i).val 'A'))

/-- Model of `generatePKCEFallback()`: a 128-character random verifier, used directly
as the challenge (plain method). -/
def generatePKCEFallback (randAt : Nat → Fin 66) : PKCE :=
  { verifier := generateRandomString randAt 128,
    challenge := generateRandomString randAt 128,
    method := .plain }

/-- Model of `safePKCEGenerate()`: the library generator when `crypto.subtle` is
available (`secureOk`, its result `securePkce`), else the fallback. -/
def safePKCEGenerate (secureOk : Bool) (securePkce : PKCE)
    (randAt : Nat → Fin 66) : PKCE :=
  if secureOk then securePkce else generatePKCEFallback randAt

inductive AnthropicAuthMethod where
  | claudePro
  | apiKey
deriving DecidableEq, Repr

def CLIENT_ID : String := "9d1c250a-e61b-44d9-88ed-5944d1962f5e"

/-- The authorization URL, modelled as host plus ordered query parameters,
with the verifier returned alongside, as in `AuthorizeResult`. -/
structure AuthorizeResult where
  urlHost : String
  urlParams : List (String × String)
  verifier : String
deriving DecidableEq, Repr

def AuthorizeResult.param (r : AuthorizeResult) (k : String) : Option String :=
  (r.urlParams.find? (fun p => p.1 == k)).map (fun p => p.2)

/-- Model of `AnthropicAuth.getAuthorizationUrl(method)` with the PKCE data produced by
`safePKCEGenerate` passed explicitly; sets the parameters exactly as the
source does, in source order. -/
def getAuthorizationUrl (method : AnthropicAuthMethod) (pkce : PKCE) :
    AuthorizeResult :=
  { urlHost := if (if method = .claudePro then "max" else "console") = "console"
      then "console.anthropic.com" else "claude.ai",
    urlParams := [("code", "true"), ("client_id", CLIENT_ID),
      ("response_type", "code"),
      ("redirect_uri", "https://console.anthropic.com/oauth/code/callback"),
      ("scope", "org:create_api_key user:profile user:inference"),
      ("code_challenge", pkce.challenge),
      ("code_challenge_method", "S256"),
      ("state", pkce.verifier)],
    verifier := pkce.verifier }

/-- Composition of `getAuthorizationUrl` including the internal `safePKCEGenerate` call, its
environment (availability of crypto.subtle, library result, random draws)
made explicit. -/
def getAuthorizationUrlFull (secureOk : Bool) (securePkce : PKCE)
    (randAt : Nat → Fin 66) (method : AnthropicAuthMethod) : AuthorizeResult :=
  getAuthorizationUrl method (safePKCEGenerate secureOk securePkce randAt)

/-- Outcome of one `fetch` + body-parse interaction whose parsed JSON has
type `α`: either a response (status plus parsed body), or a throw anywhere
within it (network error, JSON parse error). -/
inductive JsOutcome (α : Type) where
  | resp (status : Nat) (json : α)
  | thrown
deriving DecidableEq, Repr

/-- Model of `response.ok` for a bare status. -/
def statusOk (st : Nat) : Bool := 200 ≤ st && st < 300

/-- A call that failed in the sense of the spec: network error thrown, or a
non-2xx response. -/
def JsOutcome.failed {α : Type} : JsOutcome α → Bool
  | .thrown => true
  | .resp st _ => !statusOk st

/-- Parsed JSON of the token endpoint response used by `exchangeCode`. -/
structure TokenJson where
  refresh_token : String
  access_token : String
  expires_in : Nat
deriving DecidableEq, Repr

/-- Parsed JSON of the api-key endpoint response used by `exchangeCode`. -/
structure ApiKeyJson where
  raw_key : String
deriving DecidableEq, Repr

/-- The `ExchangeResult` record, with every optional field explicit. -/
structure ExchangeResult where
  type : String
  refresh : Option String := none
  access : Option String := none
  expires : Option Nat := none
  key : Option String := none
deriving DecidableEq, Repr

/-- The uniform failure value `{ type: "failed" }`. -/
def failedResult : ExchangeResult := { type := "failed" }

/-- Model of `AnthropicAuth.exchangeCode(code, verifier, method)`.  The two possible
upstream interactions (token endpoint, api-key endpoint) are explicit
inputs; `now` is `Date.now()`.  Returns the result together with how many
times each endpoint was contacted (token calls, api-key calls). -/
def exchangeCode (method : AnthropicAuthMethod) (now : Nat)
    (tokenCall : JsOutcome TokenJson) (apiKeyCall : JsOutcome ApiKeyJson) :
    ExchangeResult × Nat × Nat :=
  match tokenCall with
  | .thrown => (failedResult, 1, 0)
  | .resp st json =>
    if !statusOk st then (failedResult, 1, 0)
    else
      match method with
      | .claudePro =>
        ({ type := "success", refresh := some json.refresh_token,
           access := some json.access_token,
           expires := some (now + json.expires_in * 1000) }, 1, 0)
      | .apiKey =>
        match apiKeyCall with
        | .thrown => (failedResult, 1, 1)
        | .resp st2 json2 =>
          if !statusOk st2 then (failedResult, 1, 1)
          else ({ type := "success", key := some json2.raw_key }, 1, 1)

/-! ## Auth service (auth-service module) -/

/-- The two sessionStorage entries used by the PKCE flow; `none` models a
missing entry (`getItem` returning null). -/
structure SessionStore where
  anthropic_verifier : Option String
  anthropic_method : Option String
deriving DecidableEq, Repr

/-- The `AuthResult` record of the auth service, optional fields explicit. -/
structure AuthResult where
  success : Bool
  authUrl : Option String := none
  instructions : Option String := none
  message : Option String := none
  error : Option String := none
deriving DecidableEq, Repr

/-- Outcome of the `completeOAuthFlow` call inside `completeAnthropicAuth`:
its boolean result, or an exception landing in the surrounding catch. -/
inductive FlowOutcome where
  | ok (b : Bool)
  | thrown
deriving DecidableEq, Repr

/-- Model of `AuthService.completeAnthropicAuth(authCode)`, as a function of the
session storage contents and the outcome of the inner flow.  Returns the
`AuthResult` and the session storage as left at the end of the call.  The
`!verifier || !method` check treats the empty string as missing, as JS
falsiness does.  The two `removeItem` calls sit only in the
success branch of the source. -/
def completeAnthropicAuth (store : SessionStore) (flow : FlowOutcome) :
    AuthResult × SessionStore :=
  match store.anthropic_verifier, store.anthropic_method with
  | some v, some m =>
    if v == "" || m == "" then
      ({ success := false,
         error := some "Missing authentication data. Please restart the authentication process." },
       store)
    else
      match flow with
      | .ok true =>
        ({ success := true,
           message := some "Successfully authenticated with Anthropic Claude" },
         { anthropic_verifier := none, anthropic_method := none })
      | .ok false =>
        ({ success := false,
           error := some "Failed to complete authentication" }, store)
      | .thrown =>
        ({ success := false,
           error := some "Authentication error occurred" }, store)
  | _, _ =>
    ({ success := false,
       error := some "Missing authentication data. Please restart the authentication process." },
     store)

/-- Model of `AuthService.clearAuth(providerId)`: one DELETE to
`/api/opencode/auth/providerId`; success iff the response is OK, any throw
caught and turned into a failure result.  Returns the result together with
the number of DELETE requests issued. -/
def clearAuth (providerId : String) (del : JsOutcome Unit) :
    AuthResult × Nat :=
  match del with
  | .resp st _ =>
    if statusOk st then
      ({ success := true,
         message := some ("Successfully cleared authentication for " ++ providerId) }, 1)
    else
      ({ success := false,
         error := some ("Failed to clear authentication for " ++ providerId) }, 1)
  | .thrown =>
    ({ success := false,
       error := some ("Failed to clear authentication for " ++ providerId) }, 1)

/-- Model of `handleClearAuth` of the first `AuthStatus` variant (the one with a
fetched provider list): awaits `clearAuth`, then calls `fetchProviders()`
unconditionally (`clearAuth` never throws; it catches internally).
Returns (result, DELETE count, provider-list fetch count). -/
def handleClearAuthDynamic (providerId : String) (del : JsOutcome Unit) :
    AuthResult × Nat × Nat :=
  let r := clearAuth providerId del
  (r.1, r.2, 1)

/-- Model of `handleClearAuth` of the second `AuthStatus` variant (static provider
list): awaits `clearAuth` and only logs; no provider list is re-fetched.
Returns (result, DELETE count, provider-list fetch count). -/
def handleClearAuthStatic (providerId : String) (del : JsOutcome Unit) :
    AuthResult × Nat × Nat :=
  let r := clearAuth providerId del
  (r.1, r.2, 0)

/-! ## Chat widget (AiChat.tsx) -/

/-- A chat transcript message; timestamps are epoch milliseconds. -/
structure ChatMessage where
  id : String
  role : String
  content : String
  timestamp : Nat
deriving DecidableEq, Repr

/-- The component state of `AiChat` relevant to session creation: the
transcript, the session id, and the URL of the open `EventSource`, if
any. -/
structure ChatState where
  messages : List ChatMessage
  sessionId : Option String
  eventSourceUrl : Option String
deriving DecidableEq, Repr

def initialChatState : ChatState :=
  { messages := [], sessionId := none, eventSourceUrl := none }

/-- Model of `setupEventSource(sessionId)`: closes any existing connection and opens a
new `EventSource` to `/api/opencode/events` (the session id is not part of
the URL). -/
def setupEventSource (st : ChatState) (_sessionId : String) : ChatState :=
  { st with eventSourceUrl := some "/api/opencode/events" }

/-- Parsed JSON of a session-creation response. -/
structure SessionJson where
  id : String
deriving DecidableEq, Repr

/-- The catch branch of `createSession`: appends the connectivity-error
assistant message (id and timestamp from `Date.now()`), leaving session id
and event source untouched. -/
def createSessionCatch (st : ChatState) (now : Nat) : ChatState :=
  { st with messages := st.messages ++
      [{ id := toString now, role := "assistant",
         content := "❌ Unable to connect to OpenCode server. Please ensure:\n\n1. OpenCode server is running on port 3001\n2. You have proper authentication set up\n3. Try refreshing the page",
         timestamp := now }] }

/-- Model of `createSession()`: POSTs to `/api/opencode/session`; on an OK response it
stores the returned id in `sessionId` and opens the SSE subscription via
`setupEventSource`; a non-OK response or any throw lands in the catch
branch. -/
def createSession (st : ChatState) (now : Nat)
    (resp : JsOutcome SessionJson) : ChatState :=
  match resp with
  | .resp status json =>
    if statusOk status then
      setupEventSource { st with sessionId := some json.id } json.id
    else
      createSessionCatch st now
  | .thrown => createSessionCatch st now

/-! ## Provider status view (AuthStatus.tsx, first variant) -/

/-- A provider entry of the `/config/providers` response. -/
structure Provider where
  id : String
  name : String
  models : List String
  authenticated : Bool
deriving DecidableEq, Repr

/-- The providers response body; `none` models a missing `providers` field. -/
structure ProvidersResponse where
  providers : Option (List Provider)
deriving DecidableEq, Repr

/-- The state update of `fetchProviders` on a successful response:
`setProviders(data.providers || [])`. -/
def fetchProvidersUpdate (resp : ProvidersResponse) : List Provider :=
  resp.providers.getD []

/-- Model of `authenticatedCount`: providers with the authenticated flag set. -/
def authenticatedCount (ps : List Provider) : Nat :=
  (ps.filter (fun p => p.authenticated)).length

/-- Model of `totalCount`: all providers in state. -/
def totalCount (ps : List Provider) : Nat := ps.length

/-- The header line rendered by the first `AuthStatus` variant. -/
def renderedAuthHeader (ps : List Provider) : String :=
  toString (authenticatedCount ps) ++ " of " ++ toString (totalCount ps)
    ++ " providers authenticated"

/-! ## Claims -/

/-- C1, counterexample: with the verifier stored and the inner flow reporting
failure, `completeAnthropicAuth` leaves both sessionStorage entries in
place, refuting the claim that they are removed by the end of every call
regardless of success or failure. -/
theorem C1_cleanup_counterexample :
    (completeAnthropicAuth ⟨some "v", some "claude-pro"⟩ (.ok false)).2
      = ⟨some "v", some "claude-pro"⟩ := by decide

/-- C1 (amended): in a call to `completeAnthropicAuth` with both PKCE entries
present, the entries are removed exactly when the flow succeeds; on a
failed flow, a thrown error, or an empty stored value the session storage
is left unchanged. -/
theorem C1_cleanup_amended : ∀ (v m : String) (flow : FlowOutcome),
    (completeAnthropicAuth ⟨some v, some m⟩ flow).2 =
      (if v ≠ "" ∧ m ≠ "" ∧ flow = .ok true
        then ⟨none, none⟩ else ⟨some v, some m⟩) := by
  intro v m flow
  by_cases hv : v = "" <;> by_cases hm : m = "" <;>
    cases flow with
    | thrown => simp [completeAnthropicAuth, hv, hm]
    | ok b => cases b <;> simp [completeAnthropicAuth, hv, hm]

/-- C2, counterexample: when the upstream fetch of the
`/api/anthropic/oauth/token` handler throws, the handler answers with
status 500, not 502 as claimed. -/
theorem C2_status_counterexample :
    (anthropicOauthToken .thrown).status = 500 ∧
    (anthropicOauthToken .thrown).status ≠ 502 := by decide

/-- C2 (amended): when the upstream fetch throws, every OpenCode-facing relay
handler (auth PUT, session GET/POST, message GET/POST, events, catch-all)
answers 502 with a generic JSON error body, while the two Anthropic OAuth
handlers answer 500 with a generic JSON error body. -/
theorem C2_status_amended :
    (opencodeAuthPut .thrown).status = 502 ∧
    (opencodeSessionGet .thrown).status = 502 ∧
    (opencodeSessionPost .thrown).status = 502 ∧
    (opencodeMessageGet .thrown).status = 502 ∧
    (opencodeMessagePost .thrown).status = 502 ∧
    (opencodeEvents .thrown).status = 502 ∧
    (opencodeCatchAll .thrown).status = 502 ∧
    (anthropicOauthToken .thrown).status = 500 ∧
    (anthropicOauthApiKey .thrown).status = 500 ∧
    (opencodeAuthPut .thrown).body = .jsonErr "Failed to store auth credentials" ∧
    (opencodeSessionGet .thrown).body = .jsonErr "Failed to connect to OpenCode server" ∧
    (opencodeSessionPost .thrown).body = .jsonErr "Failed to create session" ∧
    (opencodeMessageGet .thrown).body = .jsonErr "Failed to fetch messages" ∧
    (opencodeMessagePost .thrown).body = .jsonErr "Failed to send message" ∧
    (opencodeEvents .thrown).body = .jsonErr "Failed to connect to OpenCode events stream" ∧
    (opencodeCatchAll .thrown).body = .jsonErr "Failed to connect to OpenCode server" ∧
    (anthropicOauthToken .thrown).body = .jsonErr "Failed to exchange OAuth token" ∧
    (anthropicOauthApiKey .thrown).body = .jsonErr "Failed to create API key" := by
  decide

/-- C3, counterexample: the `/api/opencode/auth/:id` PUT handler, given an
upstream 200 response labelled text/plain, answers with content type
application/json instead of the upstream content type, refuting the claim
that every proxied path copies the upstream body content type. -/
theorem C3_contenttype_counterexample :
    (opencodeAuthPut (.resp ⟨200, some "text/plain", "ok"⟩)).status = 200 ∧
    (opencodeAuthPut (.resp ⟨200, some "text/plain", "ok"⟩)).header "content-type"
      ≠ some "text/plain" := by decide

/-- C3 (amended): when the upstream responds, every forwarding handler passes
the upstream status through; the session, message and catch-all handlers
also copy the upstream content type (absent when upstream gave none) and
pass the body through, while the auth PUT and the two Anthropic OAuth
handlers always label the body application/json. -/
theorem C3_contenttype_amended : ∀ r : UpstreamResp,
    (opencodeSessionGet (.resp r)).status = r.status ∧
    (opencodeSessionGet (.resp r)).header "content-type" = r.contentType ∧
    (opencodeSessionGet (.resp r)).body = .text r.body ∧
    (opencodeSessionPost (.resp r)).status = r.status ∧
    (opencodeSessionPost (.resp r)).header "content-type" = r.contentType ∧
    (opencodeSessionPost (.resp r)).body = .text r.body ∧
    (opencodeMessageGet (.resp r)).status = r.status ∧
    (opencodeMessageGet (.resp r)).header "content-type" = r.contentType ∧
    (opencodeMessageGet (.resp r)).body = .text r.body ∧
    (opencodeMessagePost (.resp r)).status = r.status ∧
    (opencodeMessagePost (.resp r)).header "content-type" = r.contentType ∧
    (opencodeMessagePost (.resp r)).body = .text r.body ∧
    (opencodeCatchAll (.resp r)).status = r.status ∧
    (opencodeCatchAll (.resp r)).header "content-type" = r.contentType ∧
    (opencodeCatchAll (.resp r)).body = .text r.body ∧
    (opencodeAuthPut (.resp r)).status = r.status ∧
    (opencodeAuthPut (.resp r)).header "content-type" = some "application/json" ∧
    (anthropicOauthToken (.resp r)).status = r.status ∧
    (anthropicOauthToken (.resp r)).header "content-type" = some "application/json" ∧
    (anthropicOauthApiKey (.resp r)).status = r.status ∧
    (anthropicOauthApiKey (.resp r)).header "content-type" = some "application/json" := by
  intro r
  obtain ⟨st, ct, b⟩ := r
  cases ct <;>
    simp [opencodeSessionGet, opencodeSessionPost, opencodeMessageGet,
      opencodeMessagePost, opencodeCatchAll, opencodeAuthPut,
      anthropicOauthToken, anthropicOauthApiKey, forwardCopyCt,
      RelayResponse.header, List.find?, corsStar, corsMethodsAll,
      corsHeadersCt]

/-- C4, counterexample: the catch branch of the `/api/opencode/*` catch-all
proxy builds its 502 response without any CORS header, refuting the claim
that every forwarding-route response carries
Access-Control-Allow-Origin: *. -/
theorem C4_cors_counterexample :
    (opencodeCatchAll .thrown).hasCorsStar = false := by decide

/-- C4 (amended): every response of the forwarding handlers carries
Access-Control-Allow-Origin: * — except the 502 response of the catch-all
proxy on an unreachable upstream, which omits it. -/
theorem C4_cors_amended :
    (∀ u : Outcome,
      (anthropicOauthToken u).hasCorsStar = true ∧
      (anthropicOauthApiKey u).hasCorsStar = true ∧
      (opencodeAuthPut u).hasCorsStar = true ∧
      (opencodeSessionGet u).hasCorsStar = true ∧
      (opencodeSessionPost u).hasCorsStar = true ∧
      (opencodeMessageGet u).hasCorsStar = true ∧
      (opencodeMessagePost u).hasCorsStar = true ∧
      (opencodeEvents u).hasCorsStar = true) ∧
    (∀ r : UpstreamResp, (opencodeCatchAll (.resp r)).hasCorsStar = true) ∧
    (opencodeCatchAll .thrown).hasCorsStar = false := by
  refine ⟨fun u => ?_, fun r => ?_, by decide⟩
  · cases u with
    | thrown => decide
    | resp r =>
      obtain ⟨st, ct, b⟩ := r
      refine ⟨by rfl, by rfl, by rfl, ?_, ?_, ?_, ?_, ?_⟩ <;>
        first
        | (cases ct <;> rfl)
        | (simp only [opencodeEvents, UpstreamResp.isOk]
           split <;> rfl)
  · obtain ⟨st, ct, b⟩ := r
    cases ct <;> rfl

/-- C5: whenever the token endpoint fails (non-2xx or thrown), or in api-key
mode the api-key endpoint fails, `exchangeCode` returns exactly
`{ type: "failed" }` with no token or key fields; and in every run each
upstream endpoint is contacted at most once. -/
theorem C5_exchange_failure : ∀ (m : AnthropicAuthMethod) (now : Nat)
    (t : JsOutcome TokenJson) (a : JsOutcome ApiKeyJson),
    ((t.failed = true ∨ (m = AnthropicAuthMethod.apiKey ∧ a.failed = true)) →
      (exchangeCode m now t a).1 = failedResult) ∧
    (exchangeCode m now t a).2.1 ≤ 1 ∧ (exchangeCode m now t a).2.2 ≤ 1 := by
  intro m now t a
  refine ⟨fun h => ?_, ?_, ?_⟩
  · cases t with
    | thrown => rfl
    | resp st json =>
      by_cases hst : statusOk st = true
      · rcases h with h | ⟨hm, ha⟩
        · simp [JsOutcome.failed, hst] at h
        · subst hm
          cases a with
          | thrown => simp [exchangeCode, hst]
          | resp st2 json2 =>
            have hst2 : statusOk st2 = false := by
              simpa [JsOutcome.failed] using ha
            simp [exchangeCode, hst, hst2]
      · have hst' : statusOk st = false := by simpa using hst
        cases m <;> simp [exchangeCode, hst']
  · cases t with
    | thrown => simp [exchangeCode]
    | resp st json =>
      cases m with
      | claudePro => by_cases hst : statusOk st <;> simp [exchangeCode, hst]
      | apiKey =>
        by_cases hst : statusOk st
        · cases a with
          | thrown => simp [exchangeCode, hst]
          | resp st2 json2 =>
            by_cases hst2 : statusOk st2 <;> simp [exchangeCode, hst, hst2]
        · simp [exchangeCode, hst]
  · cases t with
    | thrown => simp [exchangeCode]
    | resp st json =>
      cases m with
      | claudePro => by_cases hst : statusOk st <;> simp [exchangeCode, hst]
      | apiKey =>
        by_cases hst : statusOk st
        · cases a with
          | thrown => simp [exchangeCode, hst]
          | resp st2 json2 =>
            by_cases hst2 : statusOk st2 <;> simp [exchangeCode, hst, hst2]
        · simp [exchangeCode, hst]

/-- C5, witness: a thrown token call in claude-pro mode yields the uniform
failure result. -/
theorem C5_exchange_failure_witness :
    (JsOutcome.thrown : JsOutcome TokenJson).failed = true ∧
    (exchangeCode .claudePro 0 (JsOutcome.thrown)
      (JsOutcome.thrown : JsOutcome ApiKeyJson)).1 = failedResult :=
  ⟨by decide,
   (C5_exchange_failure .claudePro 0 JsOutcome.thrown JsOutcome.thrown).1
     (Or.inl (by decide))⟩

/-- C6: the events handler answers 502 with a JSON error body (and no event
stream) when the upstream fetch throws or the upstream answers non-OK;
otherwise it answers 200 with content type text/event-stream and the
upstream body passed through unmodified. -/
theorem C6_events_handler :
    (∀ r : UpstreamResp,
      opencodeEvents (.resp r) =
        (if r.isOk then
          { status := 200,
            headers := [("content-type", "text/event-stream"),
              ("cache-control", "no-cache"), ("connection", "keep-alive"),
              ("access-control-allow-origin", "*"),
              ("access-control-allow-headers", "Cache-Control")],
            body := .text r.body }
        else
          { status := 502,
            headers := [("content-type", "application/json"),
              ("access-control-allow-origin", "*")],
            body := .jsonErr "Failed to connect to OpenCode events stream" })) ∧
    opencodeEvents .thrown =
      { status := 502,
        headers := [("content-type", "application/json"),
          ("access-control-allow-origin", "*")],
        body := .jsonErr "Failed to connect to OpenCode events stream" } := by
  refine ⟨fun r => ?_, rfl⟩
  simp only [opencodeEvents]
  split <;> rfl

/-- C7: when the session-creation response is 2xx with body id "ses_1", the
widget state afterwards has `sessionId = "ses_1"` and an SSE subscription
open to `/api/opencode/events`. -/
theorem C7_create_session (st : ChatState) (now : Nat) (status : Nat)
    (h : statusOk status = true) :
    (createSession st now (.resp status ⟨"ses_1"⟩)).sessionId = some "ses_1" ∧
    (createSession st now (.resp status ⟨"ses_1"⟩)).eventSourceUrl
      = some "/api/opencode/events" := by
  simp [createSession, h, setupEventSource]

/-- C7, witness: a fresh widget receiving a 200 response with id "ses_1". -/
theorem C7_create_session_witness :
    statusOk 200 = true ∧
    ((createSession initialChatState 0 (.resp 200 ⟨"ses_1"⟩)).sessionId
        = some "ses_1" ∧
     (createSession initialChatState 0 (.resp 200 ⟨"ses_1"⟩)).eventSourceUrl
        = some "/api/opencode/events") :=
  ⟨by decide, C7_create_session initialChatState 0 200 (by decide)⟩

/-- C8, counterexample: in the second (static-list) `AuthStatus` variant, a
successful DELETE issues exactly one DELETE but re-fetches the provider
list zero times, refuting the claim that every clear-auth invocation
re-fetches the list on success. -/
theorem C8_clear_auth_counterexample :
    (handleClearAuthStatic "anthropic" (.resp 200 ())).1.success = true ∧
    (handleClearAuthStatic "anthropic" (.resp 200 ())).2.1 = 1 ∧
    (handleClearAuthStatic "anthropic" (.resp 200 ())).2.2 = 0 := by decide

/-- C8 (amended): every clear-auth invocation issues exactly one DELETE to
`/api/opencode/auth/id` in both `AuthStatus` variants; the first variant
re-fetches the provider list afterwards on every outcome (hence on
success), while the second, static-list variant never re-fetches. -/
theorem C8_clear_auth_amended : ∀ (pid : String) (del : JsOutcome Unit),
    (handleClearAuthDynamic pid del).2.1 = 1 ∧
    (handleClearAuthDynamic pid del).2.2 = 1 ∧
    (handleClearAuthStatic pid del).2.1 = 1 ∧
    (handleClearAuthStatic pid del).2.2 = 0 := by
  intro pid del
  cases del with
  | thrown => simp [handleClearAuthDynamic, handleClearAuthStatic, clearAuth]
  | resp st u =>
    by_cases hst : statusOk st = true <;>
      simp [handleClearAuthDynamic, handleClearAuthStatic, clearAuth, hst]

/-- C9: for any provider list received, the rendered header shows an
authenticated count equal to the number of providers whose authenticated
flag is true and a total equal to the number of providers in the
response. -/
theorem C9_provider_counts : ∀ ps : List Provider,
    authenticatedCount (fetchProvidersUpdate ⟨some ps⟩) =
      ps.countP (fun p => p.authenticated) ∧
    totalCount (fetchProvidersUpdate ⟨some ps⟩) = ps.length ∧
    renderedAuthHeader (fetchProvidersUpdate ⟨some ps⟩) =
      toString (ps.countP (fun p => p.authenticated)) ++ " of "
        ++ toString ps.length ++ " providers authenticated" := by
  intro ps
  have hc : authenticatedCount ps = ps.countP (fun p => p.authenticated) :=
    (List.countP_eq_length_filter _ _).symm
  refine ⟨hc, rfl, ?_⟩
  simp [renderedAuthHeader, hc, totalCount, fetchProvidersUpdate]

/-- C10: the authorization URL declares code_challenge_method=S256
unconditionally — also when the plain fallback generated the PKCE pair, in
which case the code_challenge parameter equals the verifier itself, while
the actual derivation method of the pair is plain, not S256. -/
theorem C10_challenge_method : ∀ (m : AnthropicAuthMethod) (sp : PKCE)
    (randAt : Nat → Fin 66),
    (getAuthorizationUrlFull true sp randAt m).param "code_challenge_method"
      = some "S256" ∧
    (getAuthorizationUrlFull false sp randAt m).param "code_challenge_method"
      = some "S256" ∧
    (getAuthorizationUrlFull false sp randAt m).param "code_challenge"
      = some (safePKCEGenerate false sp randAt).verifier ∧
    (getAuthorizationUrlFull false sp randAt m).param "state"
      = some (safePKCEGenerate false sp randAt).verifier ∧
    (safePKCEGenerate false sp randAt).method = PKCEMethod.plain ∧
    PKCEMethod.plain ≠ PKCEMethod.s256 := by
  intro m sp randAt
  exact ⟨rfl, rfl, rfl, rfl, rfl, by decide⟩

